import Mathlib

set_option maxRecDepth 8000

/-!
Verification development for the PDF utility parser core
(provider registry, detection, per-field extraction cascades,
fallback orchestration and address normalization).

The JavaScript source relies on JS regular expressions.  The embedding
below models the exact regex dialect fragment used by the source with a
small fueled backtracking matcher whose priority order follows the
ECMAScript semantics: alternation prefers the left branch, greedy
repetition prefers more iterations, lazy repetition prefers fewer, and
search returns the leftmost match.  Character classes are modeled by the
ASCII fragment that the documents use.
-/

/- Character class predicates (ASCII fragment of the JS classes). -/

def isDigitJS (c : Char) : Bool := 48 ≤ c.toNat && c.toNat ≤ 57

def isSpaceJS (c : Char) : Bool :=
  c == ' ' || c == '\t' || c == '\n' || c == '\r' || c == '\x0b' || c == '\x0c'

def isLowerAZ (c : Char) : Bool := 97 ≤ c.toNat && c.toNat ≤ 122

def isUpperAZ (c : Char) : Bool := 65 ≤ c.toNat && c.toNat ≤ 90

def isAlphaJS (c : Char) : Bool := isLowerAZ c || isUpperAZ c

/- JS word character for the boundary assertion: [A-Za-z0-9_]. -/
def isWordJS (c : Char) : Bool := isAlphaJS c || isDigitJS c || c == '_'

/- Regular expression abstract syntax for the fragment used by the source. -/

inductive Rx : Type where
  | eps : Rx
  | cls (p : Char → Bool) : Rx
  | seq (a b : Rx) : Rx
  | alt (a b : Rx) : Rx
  | rep (a : Rx) (mn : Nat) (mx : Option Nat) (greedy : Bool) : Rx
  | grp (i : Nat) (a : Rx) : Rx
  | look (a : Rx) : Rx
  | wb : Rx
  | eos : Rx

/- Word boundary test between the previous character and the rest. -/
def atBoundary (prev : Option Char) (s : List Char) : Bool :=
  let pw := match prev with
    | some c => isWordJS c
    | none => false
  let nw := match s with
    | c :: _ => isWordJS c
    | [] => false
  pw != nw

def setCap (i : Nat) (v : String) (caps : List (Option String)) : List (Option String) :=
  caps.set i (some v)

/- Backtracking matcher.  An outcome is (remaining input, previous char,
captures); outcomes are listed in ECMAScript preference order and the
head of the final list is the match that JS would produce.  Fuel bounds
the recursion depth; every call strictly decreases it, and the top level
supplies fuel that is far larger than any reachable depth for the
patterns of this development. -/
def mrun : Nat → Rx → Option Char → List Char → List (Option String) →
    List (List Char × Option Char × List (Option String))
  | 0, _, _, _, _ => []
  | Nat.succ fuel, rx, prev, s, caps =>
    match rx with
    | .eps => [(s, prev, caps)]
    | .cls p =>
      match s with
      | [] => []
      | c :: rest => if p c then [(rest, some c, caps)] else []
    | .seq a b =>
      (mrun fuel a prev s caps).flatMap fun o => mrun fuel b o.2.1 o.1 o.2.2
    | .alt a b =>
      mrun fuel a prev s caps ++ mrun fuel b prev s caps
    | .rep a mn mx greedy =>
      let done := if mn == 0 then [(s, prev, caps)] else []
      if mx == some 0 then done
      else
        let step := (mrun fuel a prev s caps).flatMap fun o =>
          if o.1.length < s.length then
            mrun fuel (.rep a (mn - 1) (mx.map (· - 1)) greedy) o.2.1 o.1 o.2.2
          else []
        if greedy then step ++ done else done ++ step
    | .grp i a =>
      (mrun fuel a prev s caps).map fun o =>
        (o.1, o.2.1, setCap i (String.mk (s.take (s.length - o.1.length))) o.2.2)
    | .look a =>
      if (mrun fuel a prev s caps).isEmpty then [] else [(s, prev, caps)]
    | .wb => if atBoundary prev s then [(s, prev, caps)] else []
    | .eos => if s.isEmpty then [(s, prev, caps)] else []

/- Leftmost search: try the pattern at each position in turn. -/
def searchGo (fuel : Nat) (rx : Rx) :
    Option Char → List Char → Nat → Option (Nat × List Char × List (Option String))
  | prev, s, pos =>
    match mrun fuel rx prev s [none] with
    | o :: _ => some (pos, s.take (s.length - o.1.length), o.2.2)
    | [] =>
      match s with
      | [] => none
      | c :: rest => searchGo fuel rx (some c) rest (pos + 1)

structure RxMatch where
  start : Nat
  whole : String
  caps : List (Option String)
deriving Repr, DecidableEq

def regexFuel (s : String) : Nat := (s.length + 4) * 128

/- Model of String.prototype.match with a non-global regex: the leftmost
match, the full matched text and the captured groups. -/
def jsMatch (rx : Rx) (s : String) : Option RxMatch :=
  match searchGo (regexFuel s) rx none s.data 0 with
  | some (st, chars, caps) => some ⟨st, String.mk chars, caps⟩
  | none => none

/- Model of RegExp.prototype.test. -/
def jsTest (rx : Rx) (s : String) : Bool := (jsMatch rx s).isSome

/- Capture group 1 of a match result, as the source reads match[1]. -/
def cap1 (m : Option RxMatch) : Option String :=
  match m with
  | some mm =>
    match mm.caps with
    | some c :: _ => some c
    | _ => none
  | none => none

/- Model of s.replace(rx, empty string) for a non-global regex: remove
the leftmost match. -/
def jsReplaceFirst (rx : Rx) (s : String) : String :=
  match jsMatch rx s with
  | some m => String.mk (s.data.take m.start) ++ String.mk (s.data.drop (m.start + m.whole.length))
  | none => s

/- Pattern building blocks mirroring the JS regex notation. -/

def rseq (l : List Rx) : Rx := l.foldr Rx.seq Rx.eps

def rstar (r : Rx) : Rx := .rep r 0 none true

def rplus (r : Rx) : Rx := .rep r 1 none true

def ropt (r : Rx) : Rx := .rep r 0 (some 1) true

def lazyPlus (r : Rx) : Rx := .rep r 1 none false

def rexact (n : Nat) (r : Rx) : Rx := .rep r n (some n) true

/- A single literal character under the i flag (case-insensitive). -/
def ich (c : Char) : Rx := .cls (fun d => d.toLower == c.toLower)

/- A literal word under the i flag. -/
def istr (t : String) : Rx := rseq (t.data.map ich)

/- The dot under the s flag: any character. -/
def anyCh : Rx := .cls (fun _ => true)

def spc : Rx := .cls isSpaceJS

def dig : Rx := .cls isDigitJS

def digComma : Rx := .cls (fun c => isDigitJS c || c == ',')

def digSpace : Rx := .cls (fun c => isDigitJS c || isSpaceJS c)

def colonSpace : Rx := .cls (fun c => c == ':' || isSpaceJS c)

/- String post-processing used by the providers. -/

/- Model of v.replace(slash comma global, empty): drop every comma. -/
def stripCommas (s : String) : String := String.mk (s.data.filter (fun c => c != ','))

/- Model of v.replace(whitespace-run global, empty): drop every space char. -/
def stripAllWs (s : String) : String := String.mk (s.data.filter (fun c => !(isSpaceJS c)))

/- Model of String.prototype.trim. -/
def jsTrim (s : String) : String :=
  String.mk (((s.data.dropWhile isSpaceJS).reverse.dropWhile isSpaceJS).reverse)

def collapseWsGo : Nat → List Char → List Char
  | 0, l => l
  | _, [] => []
  | Nat.succ f, c :: rest =>
    if isSpaceJS c then ' ' :: collapseWsGo f (rest.dropWhile isSpaceJS)
    else c :: collapseWsGo f rest

/- Model of s.replace(whitespace-run global, single space). -/
def collapseWs (s : String) : String := String.mk (collapseWsGo (s.length + 1) s.data)

/-!
Address normalization (normalizeAddress in the source utils module).
Each pass below is the hand translation of one global regex replace of
the source, in the same order.  The passes are single left-to-right
scans exactly as a JS global replace proceeds: after a replacement the
scan resumes right after the replaced text.
-/

/- True when the position after prev is not inside a word. -/
def prevNonWord (prev : Option Char) : Bool :=
  match prev with
  | some c => !(isWordJS c)
  | none => true

/- True when the list starts at a non-word character or at the end. -/
def nonWordAt (l : List Char) : Bool :=
  match l with
  | c :: _ => !(isWordJS c)
  | [] => true

/- Pass 1, source regex (global): boundary, capture one uppercase letter,
one or more spaces, capture one uppercase letter, boundary; replaced by
the two letters.  Repairs split state codes such as N J. -/
def fixStateGo : Nat → Option Char → List Char → List Char
  | 0, _, l => l
  | _, _, [] => []
  | Nat.succ f, prev, c :: rest =>
    if prevNonWord prev && isUpperAZ c then
      let sp := rest.takeWhile isSpaceJS
      let r2 := rest.dropWhile isSpaceJS
      match r2 with
      | d :: r3 =>
        if sp.length > 0 && isUpperAZ d && nonWordAt r3 then
          c :: d :: fixStateGo f (some d) r3
        else c :: fixStateGo f (some c) rest
      | [] => c :: fixStateGo f (some c) rest
    else c :: fixStateGo f (some c) rest

/- One attempt of pass 2 at the current position: exactly five digits,
optional spaces, a hyphen, optional spaces, exactly four digits. -/
def zipTry (l : List Char) : Option (List Char × List Char × List Char) :=
  let d5 := l.take 5
  if d5.length == 5 && d5.all isDigitJS then
    let r1 := (l.drop 5).dropWhile isSpaceJS
    match r1 with
    | '-' :: r2 =>
      let r3 := r2.dropWhile isSpaceJS
      let d4 := r3.take 4
      if d4.length == 4 && d4.all isDigitJS then some (d5, d4, r3.drop 4) else none
    | _ => none
  else none

/- Pass 2, source regex (global): five digits, spaces, hyphen, spaces,
four digits; replaced by digits hyphen digits (ZIP+4 repair). -/
def fixZipGo : Nat → List Char → List Char
  | 0, l => l
  | _, [] => []
  | Nat.succ f, c :: rest =>
    match zipTry (c :: rest) with
    | some (d5, d4, r) => d5 ++ '-' :: (d4 ++ fixZipGo f r)
    | none => c :: fixZipGo f rest

/- Pass 3, source regex (global): a digit followed by a letter gets a
space inserted between them. -/
def spaceDigitLetterGo : Nat → List Char → List Char
  | 0, l => l
  | _, [] => []
  | Nat.succ f, c :: rest =>
    match rest with
    | d :: _ =>
      if isDigitJS c && isAlphaJS d then c :: ' ' :: spaceDigitLetterGo f rest
      else c :: spaceDigitLetterGo f rest
    | [] => [c]

/- Pass 4, source regex (global): a letter followed by a digit gets a
space inserted between them. -/
def spaceLetterDigitGo : Nat → List Char → List Char
  | 0, l => l
  | _, [] => []
  | Nat.succ f, c :: rest =>
    match rest with
    | d :: _ =>
      if isAlphaJS c && isDigitJS d then c :: ' ' :: spaceLetterDigitGo f rest
      else c :: spaceLetterDigitGo f rest
    | [] => [c]

/- Pass 6, source: toLowerCase then uppercase the word-initial character
of every word (global boundary word-char replace). -/
def titleGo : Option Char → List Char → List Char
  | _, [] => []
  | prev, c :: rest =>
    if prevNonWord prev && isWordJS c then c.toUpper :: titleGo (some c) rest
    else c :: titleGo (some c) rest

def lastD (l : List Char) (d : Char) : Char :=
  match l.reverse with
  | c :: _ => c
  | [] => d

/- Pass 7 to 11, source regexes (global, case-sensitive): a fixed token
between word boundaries replaced by its uppercase form. -/
def tokenGo (tok rep : List Char) : Nat → Option Char → List Char → List Char
  | 0, _, l => l
  | _, _, [] => []
  | Nat.succ f, prev, c :: rest =>
    if prevNonWord prev && tok.isPrefixOf (c :: rest) && nonWordAt ((c :: rest).drop tok.length) then
      rep ++ tokenGo tok rep f (some (lastD tok c)) ((c :: rest).drop tok.length)
    else c :: tokenGo tok rep f (some c) rest

/- Pass 12: the street-direction alternation N, S, E, W, Ne, Nw, Se, Sw
between word boundaries, uppercased.  JS alternation tries the branches
left to right, which this list order reproduces. -/
def dirTokens : List (List Char) :=
  [['N'], ['S'], ['E'], ['W'], ['N','e'], ['N','w'], ['S','e'], ['S','w']]

def dirFind : List (List Char) → List Char → Option (List Char × List Char)
  | [], _ => none
  | t :: ts, l =>
    if t.isPrefixOf l && nonWordAt (l.drop t.length) then
      some (t.map Char.toUpper, l.drop t.length)
    else dirFind ts l

def dirGo : Nat → Option Char → List Char → List Char
  | 0, _, l => l
  | _, _, [] => []
  | Nat.succ f, prev, c :: rest =>
    if prevNonWord prev then
      match dirFind dirTokens (c :: rest) with
      | some (up, r) => up ++ dirGo f (some (lastD up c)) r
      | none => c :: dirGo f (some c) rest
    else c :: dirGo f (some c) rest

/- normalizeAddress from the source utils module.  The source returns
null for a falsy input, which for a string argument means the empty
string; the result is otherwise always a string.  The passes run in the
source order. -/
def normalizeAddress (address : String) : Option String :=
  if address = "" then none
  else
    let a1 := fixStateGo (address.data.length + 1) none address.data
    let a2 := fixZipGo (a1.length + 1) a1
    let a3 := spaceDigitLetterGo (a2.length + 1) a2
    let a4 := spaceLetterDigitGo (a3.length + 1) a3
    let a5 := (jsTrim (collapseWs (String.mk a4))).data
    let a6 := titleGo none (a5.map Char.toLower)
    let a7 := tokenGo ['N','j'] ['N','J'] (a6.length + 1) none a6
    let a8 := tokenGo ['N','y'] ['N','Y'] (a7.length + 1) none a7
    let a9 := tokenGo ['P','a'] ['P','A'] (a8.length + 1) none a8
    let a10 := tokenGo ['C','t'] ['C','T'] (a9.length + 1) none a9
    let a11 := tokenGo ['M','a'] ['M','A'] (a10.length + 1) none a10
    let a12 := dirGo (a11.length + 1) none a11
    some (String.mk a12)

/-!
Data model.  A page carries the text of one document page (the items
array of the upstream decoder is never read by the providers and is
omitted).  ExtractedFields is the union of the field sets the two
providers return; a field a provider does not set is none, matching the
JS record whose missing key reads as undefined and is rendered as null
downstream.
-/

structure Page where
  text : String
deriving Repr

structure ExtractedFields where
  serviceAddress : Option String
  accountNumber : Option String
  gasSupplyCharges : Option String
  electricSupplyCharges : Option String
  electricPodId : Option String
  gasPodId : Option String
  totalUsageKwh : Option String
deriving Repr, DecidableEq

/- JS truthiness of a nullable string: null and the empty string are
falsy. -/
def jsTruthy (v : Option String) : Bool :=
  match v with
  | some s => s != ""
  | none => false

/- The display form v or the literal N/A used by the log lines. -/
def orNA (v : Option String) : String :=
  match v with
  | some s => if s == "" then "N/A" else s
  | none => "N/A"

/- A provider definition: id, display name, detect patterns and the
extraction function.  The extraction function receives the full text,
the page list, the log sink and the address normalizer, exactly like the
JS extractData(fullText, pages, addLog, normalizeAddress); the log sink
is modeled by explicit state passing over an arbitrary state type L. -/
structure Provider (L : Type) where
  id : String
  name : String
  detectPatterns : List Rx
  extractData : String → List Page → (String → L → L) → (String → Option String) → L →
    ExtractedFields × L

/- First-match-wins cascade over an ordered pattern list: the loop of
the source breaks at the first pattern whose match succeeds and reads
its capture group 1. -/
def cascadeFirstCapture (ps : List Rx) (t : String) : Option String :=
  match ps with
  | [] => none
  | p :: rest =>
    match jsMatch p t with
    | some m =>
      match m.caps with
      | some c :: _ => some c
      | _ => none
    | none => cascadeFirstCapture rest t

/-!
ACE provider (src/providers/ace.js).  Each Rx value carries the source
regex in a comment.
-/

/- Source regex: backslash-b ACE backslash-b, flag i. -/
def aceDetectRx1 : Rx := rseq [.wb, istr "ACE", .wb]

/- Source regex: Atlantic s-star City s-star Electric, flag i. -/
def aceDetectRx2 : Rx :=
  rseq [istr "Atlantic", rstar spc, istr "City", rstar spc, istr "Electric"]

/- Source regex: Account s-star number s-star colon s-star
group(class digit-or-space, plus), flag i. -/
def aceAccountRx : Rx :=
  rseq [istr "Account", rstar spc, istr "number", rstar spc, ich ':', rstar spc,
    .grp 0 (rplus digSpace)]

/- Source regex: Your s-star service s-star address s-star colon s-star
group(dot plus lazy) lookahead(s-star Bill or end), flags i s. -/
def aceAddressRx : Rx :=
  rseq [istr "Your", rstar spc, istr "service", rstar spc, istr "address", rstar spc,
    ich ':', rstar spc, .grp 0 (lazyPlus anyCh),
    .look (.alt (rseq [rstar spc, istr "Bill"]) .eos)]

/- The shared tail of every charge pattern: optional dollar sign and
group(class digit-or-comma plus, dot, digit exactly 2). -/
def amountGrp : Rx := .grp 0 (rseq [rplus digComma, ich '.', rexact 2 dig])

/- Source regex: Total s-plus Electric s-plus Supply s-plus Charges
s-plus dollar-opt amount, flag i. -/
def aceElectricRx1 : Rx :=
  rseq [istr "Total", rplus spc, istr "Electric", rplus spc, istr "Supply", rplus spc,
    istr "Charges", rplus spc, ropt (ich '$'), amountGrp]

/- Source regex: New s-plus XOOM s-plus Energy s-plus NJ s-plus supply
s-plus charges s-plus dollar-opt amount, flag i. -/
def aceElectricRx2 : Rx :=
  rseq [istr "New", rplus spc, istr "XOOM", rplus spc, istr "Energy", rplus spc,
    istr "NJ", rplus spc, istr "supply", rplus spc, istr "charges", rplus spc,
    ropt (ich '$'), amountGrp]

/- Source regex: XOOM s-plus Energy s-plus NJ s-plus electric s-plus
charges s-plus dollar-opt amount, flag i. -/
def aceElectricRx3 : Rx :=
  rseq [istr "XOOM", rplus spc, istr "Energy", rplus spc, istr "NJ", rplus spc,
    istr "electric", rplus spc, istr "charges", rplus spc, ropt (ich '$'), amountGrp]

/- Source regex: optional(New s-plus) electric s-plus supply s-plus
charges s-plus dollar-opt amount, flag i. -/
def aceElectricRx4 : Rx :=
  rseq [ropt (rseq [istr "New", rplus spc]), istr "electric", rplus spc, istr "supply",
    rplus spc, istr "charges", rplus spc, ropt (ich '$'), amountGrp]

/- Source regex: supply s-plus charges s-plus dollar-opt amount, flag i. -/
def aceElectricRx5 : Rx :=
  rseq [istr "supply", rplus spc, istr "charges", rplus spc, ropt (ich '$'), amountGrp]

def aceElectricPatterns : List Rx :=
  [aceElectricRx1, aceElectricRx2, aceElectricRx3, aceElectricRx4, aceElectricRx5]

/- The unconditional gas sentinel of the ACE provider; the apostrophe is
written as the escape x27. -/
def aceGasSentinel : String := "ACE Doesn\x27t Supply Gas"

def aceProvider (L : Type) : Provider L where
  id := "ace"
  name := "ACE"
  detectPatterns := [aceDetectRx1, aceDetectRx2]
  extractData := fun fullText pages addLog normalize log =>
    let accountNumber : Option String :=
      match pages with
      | [] => none
      | p1 :: _ =>
        match cap1 (jsMatch aceAccountRx p1.text) with
        | some v => some (stripAllWs v)
        | none => none
    let serviceAddress : Option String :=
      match pages with
      | [] => none
      | p1 :: _ =>
        match cap1 (jsMatch aceAddressRx p1.text) with
        | some v => normalize (jsTrim v)
        | none => none
    let electricSupplyCharges : Option String :=
      match cascadeFirstCapture aceElectricPatterns fullText with
      | some v => some (stripCommas v)
      | none => none
    let fields : ExtractedFields :=
      { serviceAddress := serviceAddress
        accountNumber := accountNumber
        gasSupplyCharges := some aceGasSentinel
        electricSupplyCharges := electricSupplyCharges
        electricPodId := none
        gasPodId := none
        totalUsageKwh := none }
    let log := addLog ("  Account: " ++ orNA accountNumber ++ ", Address: " ++
      orNA serviceAddress) log
    let log := addLog ("  Electric: $" ++ orNA electricSupplyCharges ++ ", Gas: " ++
      aceGasSentinel) log
    (fields, log)

/-!
PSEG provider (src/providers/pseg.js).
-/

/- Source regex: backslash-b PSEG backslash-b, flag i. -/
def psegDetectRx1 : Rx := rseq [.wb, istr "PSEG", .wb]

/- Source regex: Public s-star Service s-star Electric, flag i. -/
def psegDetectRx2 : Rx :=
  rseq [istr "Public", rstar spc, istr "Service", rstar spc, istr "Electric"]

/- Source regex: Service s-star address class(colon-or-space)-star
group(dot plus lazy) s-star noncapture(digit exactly 5
optional(s-star hyphen s-star digit exactly 4)), flags i s. -/
def psegAddressRx : Rx :=
  rseq [istr "Service", rstar spc, istr "address", rstar colonSpace,
    .grp 0 (lazyPlus anyCh), rstar spc,
    rexact 5 dig, ropt (rseq [rstar spc, ich '-', rstar spc, rexact 4 dig])]

/- Source regex: Service s-star address class(colon-or-space)-star,
flag i, used to strip the label from the whole match. -/
def psegAddressHeadRx : Rx :=
  rseq [istr "Service", rstar spc, istr "address", rstar colonSpace]

/- Source regex: Your s-plus PoD s-plus ID s-plus is colon s-plus PE
group(digit exactly 18), flag i. -/
def psegPodIdERx : Rx :=
  rseq [istr "Your", rplus spc, istr "PoD", rplus spc, istr "ID", rplus spc,
    istr "is:", rplus spc, istr "PE", .grp 0 (rexact 18 dig)]

/- Source regex: Your s-plus PoD s-plus ID s-plus is colon s-plus PG
group(digit exactly 18), flag i. -/
def psegPodIdGRx : Rx :=
  rseq [istr "Your", rplus spc, istr "PoD", rplus spc, istr "ID", rplus spc,
    istr "is:", rplus spc, istr "PG", .grp 0 (rexact 18 dig)]

/- Source regex: Total s-plus gas s-plus supply s-plus charges s-plus
dollar-opt amount, flag i. -/
def psegGasRx : Rx :=
  rseq [istr "Total", rplus spc, istr "gas", rplus spc, istr "supply", rplus spc,
    istr "charges", rplus spc, ropt (ich '$'), amountGrp]

/- Source regex: Total s-plus electric s-plus supply s-plus charges
s-plus dollar-opt amount, flag i. -/
def psegElectricRx1 : Rx :=
  rseq [istr "Total", rplus spc, istr "electric", rplus spc, istr "supply", rplus spc,
    istr "charges", rplus spc, ropt (ich '$'), amountGrp]

/- Source regex: Electric s-plus supply s-plus charges s-plus hyphen
s-plus class(not dollar, not newline)-plus dollar-opt amount, flag i. -/
def psegElectricRx2 : Rx :=
  rseq [istr "Electric", rplus spc, istr "supply", rplus spc, istr "charges", rplus spc,
    ich '-', rplus spc, rplus (.cls (fun c => !(c == '$' || c == '\n'))),
    ropt (ich '$'), amountGrp]

/- Source regex: Total s-plus class(A to Z, under flag i any letter)
class(not newline)-plus noncapture(Energy or Power) class(not
newline)-plus Charges s-plus dollar-opt amount, flag i. -/
def psegElectricRx3 : Rx :=
  rseq [istr "Total", rplus spc, .cls isAlphaJS, rplus (.cls (fun c => c != '\n')),
    .alt (istr "Energy") (istr "Power"), rplus (.cls (fun c => c != '\n')),
    istr "Charges", rplus spc, ropt (ich '$'), amountGrp]

def psegElectricPatterns : List Rx :=
  [psegElectricRx1, psegElectricRx2, psegElectricRx3]

/- Source regex: Total s-plus optional(electric s-plus) optional(you
s-plus) used s-plus optional(in s-plus digit-plus s-plus days s-plus)
group(class digit-or-comma plus) s-plus kWh, flag i. -/
def psegKwhRx1 : Rx :=
  rseq [istr "Total", rplus spc, ropt (rseq [istr "electric", rplus spc]),
    ropt (rseq [istr "you", rplus spc]), istr "used", rplus spc,
    ropt (rseq [istr "in", rplus spc, rplus dig, rplus spc, istr "days", rplus spc]),
    .grp 0 (rplus digComma), rplus spc, istr "kWh"]

/- Source regex: Total s-plus kWh s-plus group(class digit-or-comma
plus), flag i. -/
def psegKwhRx2 : Rx :=
  rseq [istr "Total", rplus spc, istr "kWh", rplus spc, .grp 0 (rplus digComma)]

/- Source regex: Total s-plus optional(energy s-plus) used
class(colon-or-space)-plus group(class digit-or-comma plus) s-plus kWh,
flag i. -/
def psegKwhRx3 : Rx :=
  rseq [istr "Total", rplus spc, ropt (rseq [istr "energy", rplus spc]), istr "used",
    rplus colonSpace, .grp 0 (rplus digComma), rplus spc, istr "kWh"]

/- Source regex: Total s-plus kWh class(colon-or-space)-plus group(class
digit-or-comma plus), flag i. -/
def psegKwhRx4 : Rx :=
  rseq [istr "Total", rplus spc, istr "kWh", rplus colonSpace, .grp 0 (rplus digComma)]

def psegKwhPatterns : List Rx := [psegKwhRx1, psegKwhRx2, psegKwhRx3, psegKwhRx4]

def psegProvider (L : Type) : Provider L where
  id := "pseg"
  name := "PSE&G"
  detectPatterns := [psegDetectRx1, psegDetectRx2]
  extractData := fun fullText pages addLog normalize log =>
    let serviceAddress : Option String :=
      match pages with
      | [] => none
      | p1 :: _ =>
        match jsMatch psegAddressRx p1.text with
        | some m =>
          let rawAddress := jsTrim (jsReplaceFirst psegAddressHeadRx m.whole)
          let rawAddress := jsTrim (collapseWs rawAddress)
          normalize rawAddress
        | none => none
    let electricPodId : Option String := cap1 (jsMatch psegPodIdERx fullText)
    let gasPodId : Option String := cap1 (jsMatch psegPodIdGRx fullText)
    let gasSupplyCharges : Option String :=
      match cap1 (jsMatch psegGasRx fullText) with
      | some v => some (stripCommas v)
      | none => none
    let electricSupplyCharges : Option String :=
      match cascadeFirstCapture psegElectricPatterns fullText with
      | some v => some (stripCommas v)
      | none => none
    let totalUsageKwh : Option String :=
      match cascadeFirstCapture psegKwhPatterns fullText with
      | some v => some (stripCommas v)
      | none => none
    let fields : ExtractedFields :=
      { serviceAddress := serviceAddress
        accountNumber := none
        gasSupplyCharges := gasSupplyCharges
        electricSupplyCharges := electricSupplyCharges
        electricPodId := electricPodId
        gasPodId := gasPodId
        totalUsageKwh := totalUsageKwh }
    let log := addLog ("  PE PoD: " ++ orNA electricPodId ++ ", PG PoD: " ++
      orNA gasPodId) log
    let log := addLog ("  Address: " ++ orNA serviceAddress) log
    let log := addLog ("  Electric: $" ++ orNA electricSupplyCharges ++ ", Gas: $" ++
      orNA gasSupplyCharges) log
    let log := addLog ("  Total Usage: " ++ orNA totalUsageKwh ++ " kWh") log
    (fields, log)

/-!
Provider registry (src/providers/index.js).  The source builds PROVIDERS
as a JS object literal keyed by provider id.  Key insertion into a JS
object keeps the original key position and silently replaces the stored
value when the key is already present; objInsert models exactly that.
Object.entries iterates the keys in insertion order, which the list
order models.
-/

def objInsert {A : Type} : List (String × A) → String → A → List (String × A)
  | [], k, v => [(k, v)]
  | (k1, v1) :: rest, k, v =>
    if k1 = k then (k1, v) :: rest else (k1, v1) :: objInsert rest k v

def lookupKey {A : Type} : List (String × A) → String → Option A
  | [], _ => none
  | (k1, v1) :: rest, k => if k1 = k then some v1 else lookupKey rest k

/- PROVIDERS object literal: ace registered first, pseg second. -/
def PROVIDERS (L : Type) : List (String × Provider L) :=
  objInsert (objInsert [] (aceProvider L).id (aceProvider L))
    (psegProvider L).id (psegProvider L)

/- Inner scan of detectProvider: the first provider, in registration
order, having a detect pattern (tried in order, each short-circuiting)
that matches the full text. -/
def findDetected {L : Type} : List (String × Provider L) → String →
    Option (String × Provider L)
  | [], _ => none
  | (pid, prov) :: rest, t =>
    if prov.detectPatterns.any (fun rx => jsTest rx t) then some (pid, prov)
    else findDetected rest t

/- detectProvider from src/providers/index.js, with the log sink passed
as explicit state. -/
def detectProvider (L : Type) (fullText : String) (addLog : String → L → L) (log : L) :
    Option String × L :=
  match findDetected (PROVIDERS L) fullText with
  | some (pid, prov) => (some pid, addLog ("  Detected: " ++ prov.name) log)
  | none => (none, addLog "  Could not detect utility type, trying all providers..." log)

/-!
Fallback orchestration (extractFromPDF in src/PDFUtilityParser.jsx,
lines 649 to 706, after the upstream page decoding).  The model is
instrumented with an attempts list that records the provider ids on
which extractData was invoked, one entry per call site execution, so
that coverage of the fallback loop is provable; the instrumentation has
no effect on the computed result.
-/

structure ParseOutput where
  fileName : String
  provider : Option String
  accountNumber : Option String
  serviceAddress : Option String
  totalUsageKwh : Option String
  gasSupplyCharges : Option String
  electricSupplyCharges : Option String
deriving Repr, DecidableEq

/- The returned record of extractFromPDF built from the winning fields. -/
def outputOf (fileName : String) (providerName : Option String) (r : ExtractedFields) :
    ParseOutput where
  fileName := fileName
  provider := providerName
  accountNumber := r.accountNumber
  serviceAddress := r.serviceAddress
  totalUsageKwh := r.totalUsageKwh
  gasSupplyCharges := r.gasSupplyCharges
  electricSupplyCharges := r.electricSupplyCharges

/- The initial result record of extractFromPDF: every field null. -/
def initFields : ExtractedFields :=
  { serviceAddress := none
    accountNumber := none
    gasSupplyCharges := none
    electricSupplyCharges := none
    electricPodId := none
    gasPodId := none
    totalUsageKwh := none }

/- The success test of the orchestrator: account number present or
service address present, with JS truthiness. -/
def succB (r : ExtractedFields) : Bool :=
  jsTruthy r.accountNumber || jsTruthy r.serviceAddress

structure ResolveOutcome (L : Type) where
  out : ParseOutput
  log : L
  attempts : List String

/- The fallback loop of extractFromPDF: iterate the registry in order,
skip the provider already tried, adopt the first success and stop. -/
def fallbackLoop (L : Type) :
    List (String × Provider L) → Option String → String → List Page →
    (String → L → L) → ExtractedFields → Option String → L → List String →
    ExtractedFields × Option String × L × List String
  | [], _, _, _, _, result, name, log, att => (result, name, log, att)
  | (pid, prov) :: rest, skip, fullText, pages, addLog, result, name, log, att =>
    if skip = some pid then
      fallbackLoop L rest skip fullText pages addLog result name log att
    else
      let e := prov.extractData fullText pages addLog normalizeAddress log
      if succB e.1 then (e.1, some prov.name, e.2, att ++ [pid])
      else fallbackLoop L rest skip fullText pages addLog result name e.2 (att ++ [pid])

/- extractFromPDF (minus the upstream PDF decoding): detection or the
explicitly selected mode picks the target provider, the target is tried
first, and on failure every other registered provider is tried in
registration order. -/
def extractFromPDF (L : Type) (utilityMode fileName fullText : String)
    (pages : List Page) (addLog : String → L → L) (log : L) : ResolveOutcome L :=
  let d := if utilityMode = "auto" then detectProvider L fullText addLog log
           else (some utilityMode, log)
  let targetProviderId := d.1
  let ph1 : ExtractedFields × Option String × L × List String :=
    match targetProviderId with
    | some tid =>
      match lookupKey (PROVIDERS L) tid with
      | some prov =>
        let e := prov.extractData fullText pages addLog normalizeAddress d.2
        if succB e.1 then (e.1, some prov.name, e.2, [tid])
        else (initFields, none, e.2, [tid])
      | none => (initFields, none, d.2, [])
    | none => (initFields, none, d.2, [])
  let ph2 : ExtractedFields × Option String × L × List String :=
    if succB ph1.1 then ph1
    else fallbackLoop L (PROVIDERS L) targetProviderId fullText pages addLog
      ph1.1 ph1.2.1 ph1.2.2.1 ph1.2.2.2
  { out := outputOf fileName ph2.2.1 ph2.1
    log := ph2.2.2.1
    attempts := ph2.2.2.2 }

/-!
Canonical pure views: the same functions run with the trivial log state.
The lemmas right after each definition state that the log sink does not
influence the corresponding data component, so these views describe
every instantiation.
-/

def noLog : String → Unit → Unit := fun _ u => u

def aceFields (t : String) (pages : List Page) : ExtractedFields :=
  ((aceProvider Unit).extractData t pages noLog normalizeAddress ()).1

def psegFields (t : String) (pages : List Page) : ExtractedFields :=
  ((psegProvider Unit).extractData t pages noLog normalizeAddress ()).1

def detectedId (t : String) : Option String := (detectProvider Unit t noLog ()).1

def resolveAuto (fileName t : String) (pages : List Page) : ResolveOutcome Unit :=
  extractFromPDF Unit "auto" fileName t pages noLog ()

/-!
Auxiliary decidable string observations used by concrete claim
statements: substring occurrence and the space-separated token list.
-/

def hasSubstrGo (needle : List Char) : Nat → List Char → Bool
  | 0, _ => false
  | Nat.succ f, l =>
    if needle.isPrefixOf l then true
    else
      match l with
      | [] => false
      | _ :: rest => hasSubstrGo needle f rest

def hasSubstr (s sub : String) : Bool := hasSubstrGo sub.data (s.data.length + 1) s.data

def splitSpacesGo : Nat → List Char → List (List Char)
  | 0, _ => []
  | Nat.succ f, l =>
    let w := l.takeWhile (fun c => c != ' ')
    match l.dropWhile (fun c => c != ' ') with
    | [] => [w]
    | _ :: rest => w :: splitSpacesGo f rest

def spaceTokens (s : String) : List String :=
  (splitSpacesGo (s.data.length + 1) s.data).map String.mk

/-!
Helper lemmas shared by the claim theorems.
-/

theorem PROVIDERS_eq (L : Type) :
    PROVIDERS L = [("ace", aceProvider L), ("pseg", psegProvider L)] := rfl

theorem lookup_ace (L : Type) : lookupKey (PROVIDERS L) "ace" = some (aceProvider L) := rfl

theorem lookup_pseg (L : Type) : lookupKey (PROVIDERS L) "pseg" = some (psegProvider L) := rfl

theorem succB_init : succB initFields = false := rfl

/- The data component of the ACE extraction does not mention the log
sink or the log state, so it equals the canonical pure view. -/
theorem aceFields_indep (L : Type) (sink : String → L → L) (log : L) (t : String)
    (pages : List Page) :
    ((aceProvider L).extractData t pages sink normalizeAddress log).1 = aceFields t pages := rfl

theorem psegFields_indep (L : Type) (sink : String → L → L) (log : L) (t : String)
    (pages : List Page) :
    ((psegProvider L).extractData t pages sink normalizeAddress log).1 = psegFields t pages := rfl

/- Detection scan characterized by the four detect pattern tests. -/
theorem findDetected_eq (L : Type) (t : String) :
    findDetected (PROVIDERS L) t =
      if jsTest aceDetectRx1 t || jsTest aceDetectRx2 t then some ("ace", aceProvider L)
      else if jsTest psegDetectRx1 t || jsTest psegDetectRx2 t then
        some ("pseg", psegProvider L)
      else none := by
  rw [PROVIDERS_eq]
  simp only [findDetected, aceProvider, psegProvider, List.any_cons, List.any_nil,
    Bool.or_false]

theorem detectPair_fst (L : Type) (sink : String → L → L) (log : L) (t : String) :
    (detectProvider L t sink log).1 =
      if jsTest aceDetectRx1 t || jsTest aceDetectRx2 t then some "ace"
      else if jsTest psegDetectRx1 t || jsTest psegDetectRx2 t then some "pseg"
      else none := by
  unfold detectProvider
  rw [findDetected_eq]
  cases h1 : jsTest aceDetectRx1 t || jsTest aceDetectRx2 t <;>
    cases h2 : jsTest psegDetectRx1 t || jsTest psegDetectRx2 t <;> rfl

theorem detect_indep (L : Type) (sink : String → L → L) (log : L) (t : String) :
    (detectProvider L t sink log).1 = detectedId t :=
  (detectPair_fst L sink log t).trans (detectPair_fst Unit noLog () t).symm

theorem detectedId_eq (t : String) :
    detectedId t =
      if jsTest aceDetectRx1 t || jsTest aceDetectRx2 t then some "ace"
      else if jsTest psegDetectRx1 t || jsTest psegDetectRx2 t then some "pseg"
      else none :=
  detectPair_fst Unit noLog () t

/- Field projection equations for the canonical views. -/

theorem aceFields_gas (t : String) (pages : List Page) :
    (aceFields t pages).gasSupplyCharges = some aceGasSentinel := rfl

theorem aceFields_accountNumber (t : String) (pages : List Page) :
    (aceFields t pages).accountNumber =
      match pages with
      | [] => none
      | p1 :: _ =>
        match cap1 (jsMatch aceAccountRx p1.text) with
        | some v => some (stripAllWs v)
        | none => none := rfl

theorem aceFields_serviceAddress (t : String) (pages : List Page) :
    (aceFields t pages).serviceAddress =
      match pages with
      | [] => none
      | p1 :: _ =>
        match cap1 (jsMatch aceAddressRx p1.text) with
        | some v => normalizeAddress (jsTrim v)
        | none => none := rfl

theorem aceFields_electric (t : String) (pages : List Page) :
    (aceFields t pages).electricSupplyCharges =
      match cascadeFirstCapture aceElectricPatterns t with
      | some v => some (stripCommas v)
      | none => none := rfl

theorem aceFields_usage (t : String) (pages : List Page) :
    (aceFields t pages).totalUsageKwh = none := rfl

theorem aceFields_podE (t : String) (pages : List Page) :
    (aceFields t pages).electricPodId = none := rfl

theorem aceFields_podG (t : String) (pages : List Page) :
    (aceFields t pages).gasPodId = none := rfl

theorem psegFields_accountNumber (t : String) (pages : List Page) :
    (psegFields t pages).accountNumber = none := rfl

theorem psegFields_serviceAddress (t : String) (pages : List Page) :
    (psegFields t pages).serviceAddress =
      match pages with
      | [] => none
      | p1 :: _ =>
        match jsMatch psegAddressRx p1.text with
        | some m =>
          normalizeAddress (jsTrim (collapseWs (jsTrim (jsReplaceFirst psegAddressHeadRx m.whole))))
        | none => none := rfl

theorem psegFields_podE (t : String) (pages : List Page) :
    (psegFields t pages).electricPodId = cap1 (jsMatch psegPodIdERx t) := rfl

theorem psegFields_podG (t : String) (pages : List Page) :
    (psegFields t pages).gasPodId = cap1 (jsMatch psegPodIdGRx t) := rfl

theorem psegFields_gas (t : String) (pages : List Page) :
    (psegFields t pages).gasSupplyCharges =
      match cap1 (jsMatch psegGasRx t) with
      | some v => some (stripCommas v)
      | none => none := rfl

theorem psegFields_electric (t : String) (pages : List Page) :
    (psegFields t pages).electricSupplyCharges =
      match cascadeFirstCapture psegElectricPatterns t with
      | some v => some (stripCommas v)
      | none => none := rfl

theorem psegFields_usage (t : String) (pages : List Page) :
    (psegFields t pages).totalUsageKwh =
      match cascadeFirstCapture psegKwhPatterns t with
      | some v => some (stripCommas v)
      | none => none := rfl

/- A cascade resolves to the capture of its first rule whenever that
rule matches, whatever the later rules would do. -/
theorem cascadeFirstCapture_head (p : Rx) (rest : List Rx) (t v : String)
    (h : cap1 (jsMatch p t) = some v) :
    cascadeFirstCapture (p :: rest) t = some v := by
  unfold cascadeFirstCapture
  unfold cap1 at h
  cases hm : jsMatch p t with
  | none => rw [hm] at h; simp at h
  | some mm => rw [hm] at h; exact h

/- Orchestration characterizations: the outcome of extractFromPDF in
auto mode as a function of the canonical detection and field views. -/

theorem resolve_after_ace (L : Type) (sink : String → L → L) (log : L)
    (fileName t : String) (pages : List Page) (hd : detectedId t = some "ace") :
    ((extractFromPDF L "auto" fileName t pages sink log).out =
      (if succB (aceFields t pages) then outputOf fileName (some "ACE") (aceFields t pages)
       else if succB (psegFields t pages) then
         outputOf fileName (some "PSE&G") (psegFields t pages)
       else outputOf fileName none initFields))
    ∧ ((extractFromPDF L "auto" fileName t pages sink log).attempts =
      if succB (aceFields t pages) then ["ace"] else ["ace", "pseg"]) := by
  have hd1 : (detectProvider L t sink log).1 = some "ace" :=
    (detect_indep L sink log t).trans hd
  unfold extractFromPDF
  dsimp only
  rw [if_pos rfl, hd1]
  dsimp only
  rw [lookup_ace]
  dsimp only
  rw [aceFields_indep]
  cases ha : succB (aceFields t pages) with
  | true => simp [ha, aceProvider]
  | false =>
    simp only [Bool.false_eq_true, if_false]
    simp only [succB_init, Bool.false_eq_true, if_false]
    rw [PROVIDERS_eq]
    simp only [fallbackLoop]
    simp only [if_true]
    simp only [(by simp : (some "ace" = some ("pseg" : String)) = False), if_false]
    rw [psegFields_indep]
    cases hp : succB (psegFields t pages) with
    | true => simp [hp, psegProvider]
    | false => simp [hp, fallbackLoop]

theorem resolve_after_pseg (L : Type) (sink : String → L → L) (log : L)
    (fileName t : String) (pages : List Page) (hd : detectedId t = some "pseg") :
    ((extractFromPDF L "auto" fileName t pages sink log).out =
      (if succB (psegFields t pages) then outputOf fileName (some "PSE&G") (psegFields t pages)
       else if succB (aceFields t pages) then
         outputOf fileName (some "ACE") (aceFields t pages)
       else outputOf fileName none initFields))
    ∧ ((extractFromPDF L "auto" fileName t pages sink log).attempts =
      if succB (psegFields t pages) then ["pseg"] else ["pseg", "ace"]) := by
  have hd1 : (detectProvider L t sink log).1 = some "pseg" :=
    (detect_indep L sink log t).trans hd
  unfold extractFromPDF
  dsimp only
  rw [if_pos rfl, hd1]
  dsimp only
  rw [lookup_pseg]
  dsimp only
  rw [psegFields_indep]
  cases hp : succB (psegFields t pages) with
  | true => simp [hp, psegProvider]
  | false =>
    simp only [Bool.false_eq_true, if_false]
    simp only [succB_init, Bool.false_eq_true, if_false]
    rw [PROVIDERS_eq]
    simp only [fallbackLoop]
    simp only [(by simp : (some "pseg" = some ("ace" : String)) = False), if_false]
    simp only [(by simp : (some "pseg" = some ("pseg" : String)) = True), if_true]
    rw [aceFields_indep]
    cases ha : succB (aceFields t pages) with
    | true => simp [ha, aceProvider]
    | false => simp [ha, fallbackLoop]

theorem resolve_no_detect (L : Type) (sink : String → L → L) (log : L)
    (fileName t : String) (pages : List Page) (hd : detectedId t = none) :
    ((extractFromPDF L "auto" fileName t pages sink log).out =
      (if succB (aceFields t pages) then outputOf fileName (some "ACE") (aceFields t pages)
       else if succB (psegFields t pages) then
         outputOf fileName (some "PSE&G") (psegFields t pages)
       else outputOf fileName none initFields))
    ∧ ((extractFromPDF L "auto" fileName t pages sink log).attempts =
      if succB (aceFields t pages) then ["ace"] else ["ace", "pseg"]) := by
  have hd1 : (detectProvider L t sink log).1 = none :=
    (detect_indep L sink log t).trans hd
  unfold extractFromPDF
  dsimp only
  rw [if_pos rfl, hd1]
  dsimp only
  simp only [succB_init, Bool.false_eq_true, if_false]
  rw [PROVIDERS_eq]
  simp only [fallbackLoop]
  simp only [(by simp : ((none : Option String) = some "ace") = False), if_false]
  simp only [(by simp : ((none : Option String) = some "pseg") = False), if_false]
  rw [aceFields_indep]
  cases ha : succB (aceFields t pages) with
  | true => simp [ha, aceProvider]
  | false =>
    simp only [ha, Bool.false_eq_true, if_false]
    rw [psegFields_indep]
    cases hp : succB (psegFields t pages) with
    | true => simp [ha, hp, psegProvider]
    | false => simp [ha, hp, fallbackLoop]

/-!
Claim theorems.
-/

/-- C1: for every document text and page list on which the detected
provider yields neither an account number nor a service address while
the other registered provider yields one, the fallback resolution of
extractFromPDF returns the record extracted by the other provider and
that provider display name, not the null record.  Both detection
outcomes over the two-provider registry are covered. -/
theorem fallback_returns_other_provider (L : Type) (sink : String → L → L) (log : L)
    (fileName t : String) (pages : List Page) :
    (detectedId t = some "ace" → succB (aceFields t pages) = false →
      succB (psegFields t pages) = true →
      (extractFromPDF L "auto" fileName t pages sink log).out =
        outputOf fileName (some "PSE&G") (psegFields t pages))
    ∧ (detectedId t = some "pseg" → succB (psegFields t pages) = false →
      succB (aceFields t pages) = true →
      (extractFromPDF L "auto" fileName t pages sink log).out =
        outputOf fileName (some "ACE") (aceFields t pages)) := by
  constructor
  · intro hd ha hp
    have h := (resolve_after_ace L sink log fileName t pages hd).1
    rw [ha, hp] at h
    simpa using h
  · intro hd hp ha
    have h := (resolve_after_pseg L sink log fileName t pages hd).1
    rw [ha, hp] at h
    simpa using h

/-- Witness for C1: a concrete document whose full text detects as ACE,
whose ACE extraction fails and whose PSEG extraction finds the service
address; resolution returns the PSEG record and name. -/
theorem fallback_returns_other_provider_witness :
    (extractFromPDF Unit "auto" "f.pdf" "ACE Service address 1 A St Newark NJ 07302"
      [⟨"Service address 1 A St Newark NJ 07302"⟩] noLog ()).out =
      outputOf "f.pdf" (some "PSE&G")
        (psegFields "ACE Service address 1 A St Newark NJ 07302"
          [⟨"Service address 1 A St Newark NJ 07302"⟩]) :=
  (fallback_returns_other_provider Unit noLog () "f.pdf"
    "ACE Service address 1 A St Newark NJ 07302"
    [⟨"Service address 1 A St Newark NJ 07302"⟩]).1 (by decide) (by decide) (by decide)

/-- C2: detection iterates the registered providers in registration
order, testing each detect pattern in order, and returns the id of the
first provider with a matching pattern without examining the rest; none
when no pattern of any provider matches; in particular a text matching
detect patterns of both providers yields the earlier-registered id. -/
theorem detect_first_provider_wins (L : Type) (sink : String → L → L) (log : L)
    (t : String) :
    ((jsTest aceDetectRx1 t || jsTest aceDetectRx2 t) = true →
      (detectProvider L t sink log).1 = some "ace")
    ∧ ((jsTest aceDetectRx1 t || jsTest aceDetectRx2 t) = false →
      (jsTest psegDetectRx1 t || jsTest psegDetectRx2 t) = true →
      (detectProvider L t sink log).1 = some "pseg")
    ∧ ((jsTest aceDetectRx1 t || jsTest aceDetectRx2 t) = false →
      (jsTest psegDetectRx1 t || jsTest psegDetectRx2 t) = false →
      (detectProvider L t sink log).1 = none)
    ∧ ((jsTest aceDetectRx1 t || jsTest aceDetectRx2 t) = true →
      (jsTest psegDetectRx1 t || jsTest psegDetectRx2 t) = true →
      (detectProvider L t sink log).1 = some "ace") := by
  refine ⟨fun h1 => ?_, fun h1 h2 => ?_, fun h1 h2 => ?_, fun h1 _ => ?_⟩
  · rw [detectPair_fst, if_pos h1]
  · rw [detectPair_fst,
      if_neg (show ¬ ((jsTest aceDetectRx1 t || jsTest aceDetectRx2 t) = true) by simp [h1]),
      if_pos h2]
  · rw [detectPair_fst,
      if_neg (show ¬ ((jsTest aceDetectRx1 t || jsTest aceDetectRx2 t) = true) by simp [h1]),
      if_neg (show ¬ ((jsTest psegDetectRx1 t || jsTest psegDetectRx2 t) = true) by
        simp [h2])]
  · rw [detectPair_fst, if_pos h1]

/-- Witness for C2: the text ACE PSEG matches a detect pattern of both
registered providers and detection returns the earlier-registered id. -/
theorem detect_first_provider_wins_witness :
    (jsTest aceDetectRx1 "ACE PSEG" || jsTest aceDetectRx2 "ACE PSEG") = true
    ∧ (jsTest psegDetectRx1 "ACE PSEG" || jsTest psegDetectRx2 "ACE PSEG") = true
    ∧ (detectProvider Unit "ACE PSEG" noLog ()).1 = some "ace" :=
  ⟨by decide, by decide,
    (detect_first_provider_wins Unit noLog () "ACE PSEG").2.2.2 (by decide) (by decide)⟩

/-- C3: rules inside a field cascade are evaluated in listed order and
the first rule with a non-empty captured value decides the field: for
any text on which both rule 1 and rule 2 of the electric charge cascade
capture a value, the extracted field is the postprocessed capture of
rule 1, never of rule 2.  Stated for the ACE and the PSEG electric
cascades. -/
theorem cascade_rule_one_wins (t : String) (pages : List Page) (v w v2 w2 : String) :
    (cap1 (jsMatch aceElectricRx1 t) = some v → cap1 (jsMatch aceElectricRx2 t) = some w →
      (aceFields t pages).electricSupplyCharges = some (stripCommas v))
    ∧ (cap1 (jsMatch psegElectricRx1 t) = some v2 →
      cap1 (jsMatch psegElectricRx2 t) = some w2 →
      (psegFields t pages).electricSupplyCharges = some (stripCommas v2)) := by
  constructor
  · intro h1 _
    have hc : cascadeFirstCapture aceElectricPatterns t = some v :=
      cascadeFirstCapture_head aceElectricRx1
        [aceElectricRx2, aceElectricRx3, aceElectricRx4, aceElectricRx5] t v h1
    rw [aceFields_electric, hc]
  · intro h1 _
    have hc : cascadeFirstCapture psegElectricPatterns t = some v2 :=
      cascadeFirstCapture_head psegElectricRx1 [psegElectricRx2, psegElectricRx3] t v2 h1
    rw [psegFields_electric, hc]

/-- Witness for C3: concrete texts matching both rule 1 and rule 2 of
each electric cascade; the extracted value is the capture of rule 1. -/
theorem cascade_rule_one_wins_witness :
    cap1 (jsMatch aceElectricRx1
      "Total Electric Supply Charges $10.00 New XOOM Energy NJ supply charges $20.00") =
        some "10.00"
    ∧ cap1 (jsMatch aceElectricRx2
      "Total Electric Supply Charges $10.00 New XOOM Energy NJ supply charges $20.00") =
        some "20.00"
    ∧ (aceFields
      "Total Electric Supply Charges $10.00 New XOOM Energy NJ supply charges $20.00"
      []).electricSupplyCharges = some (stripCommas "10.00")
    ∧ cap1 (jsMatch psegElectricRx1
      "Total electric supply charges $30.00 Electric supply charges - AAA $40.00") =
        some "30.00"
    ∧ cap1 (jsMatch psegElectricRx2
      "Total electric supply charges $30.00 Electric supply charges - AAA $40.00") =
        some "40.00"
    ∧ (psegFields
      "Total electric supply charges $30.00 Electric supply charges - AAA $40.00"
      []).electricSupplyCharges = some (stripCommas "30.00") :=
  ⟨by decide, by decide,
    (cascade_rule_one_wins
      "Total Electric Supply Charges $10.00 New XOOM Energy NJ supply charges $20.00"
      [] "10.00" "20.00" "x" "x").1 (by decide) (by decide),
   by decide, by decide,
    (cascade_rule_one_wins
      "Total electric supply charges $30.00 Electric supply charges - AAA $40.00"
      [] "x" "x" "30.00" "40.00").2 (by decide) (by decide)⟩

/-- C4: for every input, every log sink and every address normalizer
collaborator, the ACE extraction returns the gas charges field equal to
the exact sentinel string (with the apostrophe written as the escape
x27), unconditionally and without evaluating any gas rule. -/
theorem ace_gas_sentinel_invariant (L : Type) (sink : String → L → L)
    (norm : String → Option String) (log : L) (t : String) (pages : List Page) :
    (((aceProvider L).extractData t pages sink norm log).1).gasSupplyCharges =
      some "ACE Doesn\x27t Supply Gas" := rfl

/-- C5 counterexample: the registry is built by JS object literal key
insertion (objInsert, used to construct PROVIDERS).  Registering a
second definition under the already-present id ace does not fail with
any error: it silently overwrites the stored definition, contradicting
the claim that a duplicate registration fails with DuplicateProviderId
and that the registry never silently overwrites. -/
theorem duplicate_registration_overwrites :
    objInsert [("ace", "first definition")] "ace" "second definition" =
      [("ace", "second definition")]
    ∧ lookupKey (objInsert [("ace", "first definition")] "ace" "second definition")
      "ace" = some "second definition" := ⟨rfl, rfl⟩

/-- C5 amended: registration is plain key-indexed insertion with last
write wins: inserting a definition under an already-present id cannot
fail and silently overwrites the stored definition, keeping the key
position; no DuplicateProviderId error exists.  The shipped registry
registers the two distinct ids ace and pseg, so no overwrite occurs in
practice. -/
theorem registration_last_write_wins (A : Type) (regs : List (String × A)) (k : String)
    (v : A) (L : Type) :
    lookupKey (objInsert regs k v) k = some v
    ∧ (PROVIDERS L).map Prod.fst = ["ace", "pseg"] := by
  constructor
  · induction regs with
    | nil => simp [objInsert, lookupKey]
    | cons hd tl ih =>
      obtain ⟨k1, v1⟩ := hd
      by_cases hk : k1 = k
      · subst hk; simp [objInsert, lookupKey]
      · simp [objInsert, lookupKey, hk, ih]
  · rfl

/-- C6: normalizeAddress on the concrete damaged address yields the
string 123 N J Main Street Newark NJ 07302-6475, which contains the
exact substring 07302-6475 (the ZIP+4 repaired across the whitespace
after the hyphen) and the exact whole-word token NJ re-uppercased, and
no token Nj. -/
theorem normalize_concrete_address :
    normalizeAddress "123 n j main street newark nj 07302- 6475" =
      some "123 N J Main Street Newark NJ 07302-6475"
    ∧ hasSubstr "123 N J Main Street Newark NJ 07302-6475" "07302-6475" = true
    ∧ (spaceTokens "123 N J Main Street Newark NJ 07302-6475").contains "NJ" = true
    ∧ (spaceTokens "123 N J Main Street Newark NJ 07302-6475").contains "Nj" = false := by
  refine ⟨by decide, by decide, by decide, by decide⟩

/-- C7 counterexample: the claim quantifies over every document in which
the amount 6,882.85 with dollar sign stands right after a matching
charge label, but the extraction takes the leftmost cascade match: in a
document whose earlier text also matches the label with a different
amount, the field is that earlier amount, 1.00, and not 6882.85. -/
theorem currency_claim_counterexample :
    ("Total electric supply charges $1.00 Total electric supply charges $6,882.85" =
      "Total electric supply charges $1.00 " ++ "Total electric supply charges $6,882.85")
    ∧ (psegFields
        "Total electric supply charges $1.00 Total electric supply charges $6,882.85"
        []).electricSupplyCharges = some "1.00"
    ∧ some "1.00" ≠ some ("6882.85" : String) :=
  ⟨rfl, by decide, by decide⟩

/-- C7 amended: whenever the PSEG electric charge cascade resolves with
the captured amount 6,882.85 (in particular on any document whose
leftmost cascade match is the label directly followed by that dollar
amount), the extracted field is the literal string 6882.85: the
thousands comma and the currency symbol are stripped purely textually
and the decimal point is preserved, with no numeric parsing. -/
theorem currency_normalization_first_match (t : String) (pages : List Page)
    (h : cascadeFirstCapture psegElectricPatterns t = some "6,882.85") :
    (psegFields t pages).electricSupplyCharges = some "6882.85" := by
  rw [psegFields_electric, h]
  decide

/-- Witness for C7 amended: the label directly followed by the amount;
the cascade captures 6,882.85 and the field is 6882.85. -/
theorem currency_normalization_first_match_witness :
    cascadeFirstCapture psegElectricPatterns "Total electric supply charges $6,882.85" =
      some "6,882.85"
    ∧ (psegFields "Total electric supply charges $6,882.85" []).electricSupplyCharges =
      some "6882.85" :=
  ⟨by decide,
    currency_normalization_first_match "Total electric supply charges $6,882.85" []
      (by decide)⟩

/-- C8: for every document on which neither registered provider
extracts an account number or a service address, the resolution returns
the record with a null provider name and every field null, and the
attempts trace shows that extraction ran for every registered provider
at least once before returning. -/
theorem no_success_yields_null_record (L : Type) (sink : String → L → L) (log : L)
    (fileName t : String) (pages : List Page)
    (ha : succB (aceFields t pages) = false) (hp : succB (psegFields t pages) = false) :
    (extractFromPDF L "auto" fileName t pages sink log).out =
      outputOf fileName none initFields
    ∧ "ace" ∈ (extractFromPDF L "auto" fileName t pages sink log).attempts
    ∧ "pseg" ∈ (extractFromPDF L "auto" fileName t pages sink log).attempts := by
  by_cases c1 : (jsTest aceDetectRx1 t || jsTest aceDetectRx2 t) = true
  · have hd : detectedId t = some "ace" := by rw [detectedId_eq, if_pos c1]
    have h := resolve_after_ace L sink log fileName t pages hd
    rw [ha, hp] at h
    obtain ⟨h1, h2⟩ := h
    simp only [Bool.false_eq_true, if_false] at h1 h2
    exact ⟨h1, by rw [h2]; simp, by rw [h2]; simp⟩
  · by_cases c2 : (jsTest psegDetectRx1 t || jsTest psegDetectRx2 t) = true
    · have hd : detectedId t = some "pseg" := by
        rw [detectedId_eq, if_neg c1, if_pos c2]
      have h := resolve_after_pseg L sink log fileName t pages hd
      rw [ha, hp] at h
      obtain ⟨h1, h2⟩ := h
      simp only [Bool.false_eq_true, if_false] at h1 h2
      exact ⟨h1, by rw [h2]; simp, by rw [h2]; simp⟩
    · have hd : detectedId t = none := by rw [detectedId_eq, if_neg c1, if_neg c2]
      have h := resolve_no_detect L sink log fileName t pages hd
      rw [ha, hp] at h
      obtain ⟨h1, h2⟩ := h
      simp only [Bool.false_eq_true, if_false] at h1 h2
      exact ⟨h1, by rw [h2]; simp, by rw [h2]; simp⟩

/-- Witness for C8: the empty document matches no detect pattern and no
extraction rule; the result is the null record and both providers were
attempted. -/
theorem no_success_yields_null_record_witness :
    (extractFromPDF Unit "auto" "f.pdf" "" [] noLog ()).out = outputOf "f.pdf" none initFields
    ∧ "ace" ∈ (extractFromPDF Unit "auto" "f.pdf" "" [] noLog ()).attempts
    ∧ "pseg" ∈ (extractFromPDF Unit "auto" "f.pdf" "" [] noLog ()).attempts :=
  no_success_yields_null_record Unit noLog () "f.pdf" "" [] (by decide) (by decide)

/-- C9: extraction is a total function for both providers: on every
input, including empty text, text matching no pattern and an empty or
nonempty page list, it returns a complete record with the fixed field
set (totality is by construction of the embedding, with no error
outcome in any branch), and every field whose rules do not match is
null: the page-scoped fields are null both when the page list is empty
and when the first page matches no account or address rule, the
full-text fields are null when their pattern or cascade does not match,
the ACE gas field carries its sentinel and the fields ACE never
computes are null. -/
theorem extraction_total_unmatched_null (t : String) (pages : List Page) :
    ((pages = [] →
        (aceFields t pages).accountNumber = none
        ∧ (aceFields t pages).serviceAddress = none)
      ∧ (∀ p1 rest, pages = p1 :: rest → cap1 (jsMatch aceAccountRx p1.text) = none →
        (aceFields t pages).accountNumber = none)
      ∧ (∀ p1 rest, pages = p1 :: rest → cap1 (jsMatch aceAddressRx p1.text) = none →
        (aceFields t pages).serviceAddress = none)
      ∧ (cascadeFirstCapture aceElectricPatterns t = none →
        (aceFields t pages).electricSupplyCharges = none)
      ∧ (aceFields t pages).totalUsageKwh = none
      ∧ (aceFields t pages).electricPodId = none
      ∧ (aceFields t pages).gasPodId = none
      ∧ (aceFields t pages).gasSupplyCharges = some aceGasSentinel)
    ∧ ((pages = [] → (psegFields t pages).serviceAddress = none)
      ∧ (∀ p1 rest, pages = p1 :: rest → jsMatch psegAddressRx p1.text = none →
        (psegFields t pages).serviceAddress = none)
      ∧ (psegFields t pages).accountNumber = none
      ∧ (jsMatch psegPodIdERx t = none → (psegFields t pages).electricPodId = none)
      ∧ (jsMatch psegPodIdGRx t = none → (psegFields t pages).gasPodId = none)
      ∧ (cap1 (jsMatch psegGasRx t) = none → (psegFields t pages).gasSupplyCharges = none)
      ∧ (cascadeFirstCapture psegElectricPatterns t = none →
        (psegFields t pages).electricSupplyCharges = none)
      ∧ (cascadeFirstCapture psegKwhPatterns t = none →
        (psegFields t pages).totalUsageKwh = none)) := by
  refine ⟨⟨?_, ?_, ?_, ?_, rfl, rfl, rfl, rfl⟩, ?_, ?_, rfl, ?_, ?_, ?_, ?_, ?_⟩
  · intro h; subst h; exact ⟨rfl, rfl⟩
  · intro p1 rest h hm; subst h; simp only [aceFields_accountNumber, hm]
  · intro p1 rest h hm; subst h; simp only [aceFields_serviceAddress, hm]
  · intro h; rw [aceFields_electric, h]
  · intro h; subst h; rfl
  · intro p1 rest h hm; subst h; simp only [psegFields_serviceAddress, hm]
  · intro h; rw [psegFields_podE, h]; rfl
  · intro h; rw [psegFields_podG, h]; rfl
  · intro h; rw [psegFields_gas, h]
  · intro h; rw [psegFields_electric, h]
  · intro h; rw [psegFields_usage, h]

/-- Witness for C9: both providers on the empty document with an empty
page list and on a document with one page whose text matches no
account or address rule: every field null except the ACE gas
sentinel. -/
theorem extraction_total_unmatched_null_witness :
    (aceFields "" []).accountNumber = none
    ∧ (aceFields "" [⟨""⟩]).accountNumber = none
    ∧ (aceFields "" [⟨""⟩]).serviceAddress = none
    ∧ (aceFields "" []).electricSupplyCharges = none
    ∧ (aceFields "" []).gasSupplyCharges = some aceGasSentinel
    ∧ (psegFields "" [⟨""⟩]).serviceAddress = none
    ∧ (psegFields "" []).electricPodId = none
    ∧ (psegFields "" []).totalUsageKwh = none :=
  ⟨((extraction_total_unmatched_null "" []).1.1 rfl).1,
   (extraction_total_unmatched_null "" [⟨""⟩]).1.2.1 ⟨""⟩ [] rfl (by decide),
   (extraction_total_unmatched_null "" [⟨""⟩]).1.2.2.1 ⟨""⟩ [] rfl (by decide),
   (extraction_total_unmatched_null "" []).1.2.2.2.1 (by decide),
   (extraction_total_unmatched_null "" []).1.2.2.2.2.2.2.2,
   (extraction_total_unmatched_null "" [⟨""⟩]).2.2.1 ⟨""⟩ [] rfl (by decide),
   (extraction_total_unmatched_null "" []).2.2.2.2.1 (by decide),
   (extraction_total_unmatched_null "" []).2.2.2.2.2.2.2.2 (by decide)⟩

/-- C10: the extracted data does not depend on the log sink: for every
input and any two log sinks over any two log state types (including the
no-op sink), the ACE and PSEG extraction records, the detected provider
id and the resolved output and attempts trace are identical; the sink
exists purely for observability. -/
theorem log_sink_independence (L1 L2 : Type) (s1 : String → L1 → L1)
    (s2 : String → L2 → L2) (l1 : L1) (l2 : L2) (fileName t : String)
    (pages : List Page) :
    ((aceProvider L1).extractData t pages s1 normalizeAddress l1).1 =
      ((aceProvider L2).extractData t pages s2 normalizeAddress l2).1
    ∧ ((psegProvider L1).extractData t pages s1 normalizeAddress l1).1 =
      ((psegProvider L2).extractData t pages s2 normalizeAddress l2).1
    ∧ (detectProvider L1 t s1 l1).1 = (detectProvider L2 t s2 l2).1
    ∧ (extractFromPDF L1 "auto" fileName t pages s1 l1).out =
      (extractFromPDF L2 "auto" fileName t pages s2 l2).out
    ∧ (extractFromPDF L1 "auto" fileName t pages s1 l1).attempts =
      (extractFromPDF L2 "auto" fileName t pages s2 l2).attempts := by
  refine ⟨rfl, rfl, (detect_indep L1 s1 l1 t).trans (detect_indep L2 s2 l2 t).symm, ?_, ?_⟩
  all_goals
    by_cases c1 : (jsTest aceDetectRx1 t || jsTest aceDetectRx2 t) = true
    · have hd : detectedId t = some "ace" := by rw [detectedId_eq, if_pos c1]
      simp only [(resolve_after_ace L1 s1 l1 fileName t pages hd).1,
        (resolve_after_ace L2 s2 l2 fileName t pages hd).1,
        (resolve_after_ace L1 s1 l1 fileName t pages hd).2,
        (resolve_after_ace L2 s2 l2 fileName t pages hd).2]
    · by_cases c2 : (jsTest psegDetectRx1 t || jsTest psegDetectRx2 t) = true
      · have hd : detectedId t = some "pseg" := by
          rw [detectedId_eq, if_neg c1, if_pos c2]
        simp only [(resolve_after_pseg L1 s1 l1 fileName t pages hd).1,
          (resolve_after_pseg L2 s2 l2 fileName t pages hd).1,
          (resolve_after_pseg L1 s1 l1 fileName t pages hd).2,
          (resolve_after_pseg L2 s2 l2 fileName t pages hd).2]
      · have hd : detectedId t = none := by rw [detectedId_eq, if_neg c1, if_neg c2]
        simp only [(resolve_no_detect L1 s1 l1 fileName t pages hd).1,
          (resolve_no_detect L2 s2 l2 fileName t pages hd).1,
          (resolve_no_detect L1 s1 l1 fileName t pages hd).2,
          (resolve_no_detect L2 s2 l2 fileName t pages hd).2]
